import Mathlib

/-!
Shallow embedding of the CustomerCareAI_Ecosystem pipeline coordinator.

Each definition mirrors one Python function or Pydantic model of the
repository:
  * `api/schemas.py`            — the data model (`OCSOutput`, `EIAOutput`, …)
  * `orchestrator/aggregator.py`— `_check_escalation`, `aggregate_outputs`
  * `orchestrator/context_manager.py` — `ContextManager.get_or_create` / `update`
  * `agents/base_agent.py`      — `BaseAgent.safe_process`
  * `api/middleware.py`         — `RateLimitMiddleware.dispatch`

Python floats that only ever enter ordered comparisons (sentiment scores,
timestamps) are embedded as rationals `ℚ`; Python ints as `Int`; `None` as
`Option`; a raised exception as the `Except.error` branch of `Except`.
The repository ships no `config/escalation_thresholds.yaml`, so the loader in
`orchestrator/aggregator.py` catches `FileNotFoundError` and every
`ESCALATION_CONFIG.get` falls back to its written default; the constants below
are those defaults.
-/

namespace CustomerCareAI

/-! ## Data model (`api/schemas.py`) -/

/-- `SeverityLevel` enum of `api/schemas.py`. -/
inductive SeverityLevel where
  | low
  | medium
  | high
  | critical
deriving DecidableEq, Repr

/-- `ChannelType` enum of `api/schemas.py`. -/
inductive ChannelType where
  | chat
  | email
  | social
deriving DecidableEq, Repr

/-- `SupportedLanguage` enum of `api/schemas.py`. -/
inductive SupportedLanguage where
  | en
  | ar
deriving DecidableEq, Repr

/-- `OCSOutput` of `api/schemas.py` (intent + draft-response generator). -/
structure OCSOutput where
  response_text : String := ""
  intent : String := "unknown"
  suggested_faq_ids : List String := []
  escalation_flag : Bool := false
  language : SupportedLanguage := .en
deriving DecidableEq, Repr

/-- `FAQArticle` of `api/schemas.py`. -/
structure FAQArticle where
  article_id : String
  title : String
  content_snippet : String
  confidence_score : ℚ
deriving DecidableEq, Repr

/-- `KFOOutput` of `api/schemas.py` (knowledge search). -/
structure KFOOutput where
  suggested_faq_articles : List FAQArticle := []
  updated_knowledge : Bool := false
deriving DecidableEq, Repr

/-- `EIAOutput` of `api/schemas.py` (sentiment / emotion analyzer). -/
structure EIAOutput where
  sentiment_score : ℚ := 0
  dominant_emotion : String := "neutral"
  escalation_flag : Bool := false
  tone_recommendation : String := "neutral"
deriving DecidableEq, Repr

/-- `ProactiveAlert` of `api/schemas.py`. -/
structure ProactiveAlert where
  alert_type : String
  severity : SeverityLevel
  recommended_action : String
  timestamp : String
deriving DecidableEq, Repr

/-- `PIROutput` of `api/schemas.py` (anomaly scan). -/
structure PIROutput where
  proactive_alerts : List ProactiveAlert := []
deriving DecidableEq, Repr

/-- `FeedbackAnalysis` of `api/schemas.py`. -/
structure FeedbackAnalysis where
  csat_score : Option ℚ := none
  sentiment_trend : Option String := none
  top_issues : List String := []
  knowledge_gap_flags : List String := []
deriving DecidableEq, Repr

/-- `KnowledgeBaseUpdate` of `api/schemas.py`. -/
structure KnowledgeBaseUpdate where
  article_id : String
  update_type : String
  content : String
deriving DecidableEq, Repr

/-- `FANOutput` of `api/schemas.py` (feedback analyzer). -/
structure FANOutput where
  feedback_analysis : FeedbackAnalysis := {}
  knowledge_base_update : List KnowledgeBaseUpdate := []
deriving DecidableEq, Repr

/-- One slot of `AgentLogs`: in Python each slot is a `dict` holding either the
agent output's `model_dump()` or a fixed `{"status": …}` marker.  The embedding
keeps the dumped output intact (`dump`) and the marker's status string
(`status`). -/
inductive AgentLogEntry (α : Type) where
  | dump (output : α)
  | status (s : String)
deriving DecidableEq, Repr

/-- `AgentLogs` of `api/schemas.py`, one slot per agent role. -/
structure AgentLogs where
  ocs : AgentLogEntry OCSOutput
  kfo : AgentLogEntry KFOOutput
  eia : AgentLogEntry EIAOutput
  pir : AgentLogEntry PIROutput
  fan : AgentLogEntry FANOutput
deriving DecidableEq, Repr

/-- `OrchestratorResponse` of `api/schemas.py` — the unified response record. -/
structure OrchestratorResponse where
  interaction_id : String
  timestamp : String
  customer_id : String
  channel : ChannelType
  language : SupportedLanguage := .en
  response_text : String := ""
  intent : String := "unknown"
  sentiment_score : ℚ := 0
  dominant_emotion : String := "neutral"
  escalation_flag : Bool := false
  escalation_reason : Option String := none
  suggested_faq_articles : List FAQArticle := []
  proactive_alerts : List ProactiveAlert := []
  feedback_analysis : FeedbackAnalysis := {}
  agent_logs : AgentLogs
deriving DecidableEq, Repr

/-! ## Conversation context snapshot (`orchestrator/context_manager.py`)

`ContextManager.get_or_create` returns a plain dict with exactly the keys
below; `aggregate_outputs` receives that dict as its `context` argument. -/

/-- One `history` entry `{role, text, timestamp}` as appended by
`ContextManager.update`. -/
structure HistoryEntry where
  role : String
  text : String
  timestamp : String
deriving DecidableEq, Repr

/-- The context-snapshot dict returned by `ContextManager.get_or_create`. -/
structure ContextSnapshot where
  conversation_id : String
  customer_id : String
  channel : String
  language : String
  history : List HistoryEntry
  previous_intents : List String
  emotion_trend : List String
  is_escalated : Bool
  turn_count : Int
  unresolved_turns : Int
deriving DecidableEq, Repr

/-! ## Escalation policy defaults (`orchestrator/aggregator.py` lines 36–42)

`config/escalation_thresholds.yaml` does not exist in the repository, so
`ESCALATION_CONFIG = {}` and each `.get` yields the inline default. -/

/-- Default `ESCALATION_CONFIG["sentiment"]["threshold"]` fallback `-0.65`. -/
def sentimentThreshold : ℚ := -65 / 100

/-- Default `ESCALATION_CONFIG["emotion"]["trigger_emotions"]` fallback. -/
def triggerEmotions : List String := ["anger", "distress"]

/-- Default `ESCALATION_CONFIG["emotion"]["consecutive_turns"]` fallback. -/
def consecutiveRequired : Nat := 2

/-- Default `ESCALATION_CONFIG["unresolved"]["max_unresolved_turns"]` fallback. -/
def maxUnresolvedTurns : Nat := 3

/-! ## Escalation evaluation (`_check_escalation`, aggregator.py lines 45–110) -/

/-- One reason string appended by `_check_escalation`, abstracted by which
check produced it together with the data interpolated into the f-string; the
rendering to the literal message text is presentation-only. -/
inductive EscalationReason where
  | explicitRequest
  | escalationIntent
  | sentimentBelow (score : ℚ) (threshold : ℚ)
  | consecutiveEmotion (emotion : String) (count : Nat)
  | eiaFlag
  | criticalAlert (alert_type : String)
  | unresolvedTurns (unresolved : Int) (threshold : Nat)
deriving DecidableEq, Repr

/-- Which of the seven checks an `EscalationReason` came from, in source
order 1–7. -/
def EscalationReason.checkIndex : EscalationReason → Nat
  | .explicitRequest => 1
  | .escalationIntent => 2
  | .sentimentBelow _ _ => 3
  | .consecutiveEmotion _ _ => 4
  | .eiaFlag => 5
  | .criticalAlert _ => 6
  | .unresolvedTurns _ _ => 7

/-- The `for emotion in reversed(emotion_trend_check): … else: break` loop of
aggregator.py lines 77–82: length of the maximal all-trigger suffix, i.e. the
count of trailing trigger emotions before the first non-trigger one (scanning
from the end). -/
def trailingTriggerCount (check_list : List String) : Nat :=
  (check_list.reverse.takeWhile (fun emotion => emotion ∈ triggerEmotions)).length

/-- Check 1 of `_check_escalation` (aggregator.py lines 56–58):
`if ocs_output and ocs_output.escalation_flag`. -/
def check_explicit_flag (ocs_output : Option OCSOutput) : List EscalationReason :=
  match ocs_output with
  | some o => if o.escalation_flag then [.explicitRequest] else []
  | none => []

/-- Check 2 (aggregator.py lines 59–60):
`if ocs_output and ocs_output.intent == "escalation_request"`. -/
def check_intent_label (ocs_output : Option OCSOutput) : List EscalationReason :=
  match ocs_output with
  | some o => if o.intent = "escalation_request" then [.escalationIntent] else []
  | none => []

/-- Check 3 (aggregator.py lines 62–67): sentiment strictly below threshold. -/
def check_sentiment (eia_output : Option EIAOutput) : List EscalationReason :=
  match eia_output with
  | some e =>
      if e.sentiment_score < sentimentThreshold then
        [.sentimentBelow e.sentiment_score sentimentThreshold]
      else []
  | none => []

/-- Check 4 (aggregator.py lines 69–87): at least `consecutive_required`
trailing trigger emotions in `emotion_trend + [dominant_emotion]`. -/
def check_consecutive (eia_output : Option EIAOutput) (context : ContextSnapshot) :
    List EscalationReason :=
  match eia_output with
  | some e =>
      let consecutive_count :=
        trailingTriggerCount (context.emotion_trend ++ [e.dominant_emotion])
      if consecutiveRequired ≤ consecutive_count then
        [.consecutiveEmotion e.dominant_emotion consecutive_count]
      else []
  | none => []

/-- Check 5 (aggregator.py lines 89–91): EIA agent's own escalation flag. -/
def check_eia_flag (eia_output : Option EIAOutput) : List EscalationReason :=
  match eia_output with
  | some e => if e.escalation_flag then [.eiaFlag] else []
  | none => []

/-- Check 6 (aggregator.py lines 93–98): first critical proactive alert (the
Python loop breaks after appending one reason, hence `find?`). -/
def check_critical_alert (pir_output : Option PIROutput) : List EscalationReason :=
  match pir_output with
  | some p =>
      match p.proactive_alerts.find? (fun a => a.severity = SeverityLevel.critical) with
      | some alert => [.criticalAlert alert.alert_type]
      | none => []
  | none => []

/-- Check 7 (aggregator.py lines 100–106): unresolved turns at or above the
maximum. -/
def check_unresolved (context : ContextSnapshot) : List EscalationReason :=
  if (maxUnresolvedTurns : Int) ≤ context.unresolved_turns then
    [.unresolvedTurns context.unresolved_turns maxUnresolvedTurns]
  else []

/-- `_check_escalation` of `orchestrator/aggregator.py`: the `reasons` list is
built by the seven checks in source order; the function returns
`(reasons ≠ [], reasons)` (in Python: `(True, " | ".join(reasons))` when
nonempty, `(False, None)` when empty — the join is rendering only, the reason
sequence itself is what the embedding keeps). -/
def checkEscalation (ocs_output : Option OCSOutput) (eia_output : Option EIAOutput)
    (pir_output : Option PIROutput) (context : ContextSnapshot) :
    Bool × List EscalationReason :=
  let reasons :=
    check_explicit_flag ocs_output ++ check_intent_label ocs_output ++
    check_sentiment eia_output ++ check_consecutive eia_output context ++
    check_eia_flag eia_output ++ check_critical_alert pir_output ++
    check_unresolved context
  (!reasons.isEmpty, reasons)

/-! ## Response aggregation (`aggregate_outputs`, aggregator.py lines 113–175)

`datetime.now` is embedded as the explicit `timestamp` argument; everything
else is the Python function verbatim. -/

/-- `aggregate_outputs` of `orchestrator/aggregator.py`. -/
def aggregate_outputs (interaction_id : String) (timestamp : String)
    (customer_id : String) (channel : ChannelType) (language : SupportedLanguage)
    (context : ContextSnapshot)
    (ocs_output : Option OCSOutput) (kfo_output : Option KFOOutput)
    (eia_output : Option EIAOutput) (pir_output : Option PIROutput)
    (fan_output : Option FANOutput := none) : OrchestratorResponse :=
  let gate := checkEscalation ocs_output eia_output pir_output context
  { interaction_id := interaction_id
    timestamp := timestamp
    customer_id := customer_id
    channel := channel
    language := language
    response_text := match ocs_output with | some o => o.response_text | none => ""
    intent := match ocs_output with | some o => o.intent | none => "unknown"
    sentiment_score := match eia_output with | some e => e.sentiment_score | none => 0
    dominant_emotion := match eia_output with | some e => e.dominant_emotion | none => "neutral"
    escalation_flag := gate.1
    escalation_reason :=
      if gate.2.isEmpty then none else some "joined reasons"
    suggested_faq_articles :=
      match kfo_output with | some k => k.suggested_faq_articles | none => []
    proactive_alerts :=
      match pir_output with | some p => p.proactive_alerts | none => []
    feedback_analysis :=
      match fan_output with | some f => f.feedback_analysis | none => {}
    agent_logs :=
      { ocs := match ocs_output with | some o => .dump o | none => .status "skipped"
        kfo := match kfo_output with | some k => .dump k | none => .status "skipped"
        eia := match eia_output with | some e => .dump e | none => .status "skipped"
        pir := match pir_output with | some p => .dump p | none => .status "skipped"
        fan := match fan_output with | some f => .dump f | none => .status "pending_async" } }

/-! ## Agent contract (`agents/base_agent.py`)

A concrete agent's `process` either returns an output or raises; the raise is
embedded as `Except.error` carrying the exception message.  `safe_process`
wraps it: the Python `try/except Exception` catches every raise and returns
`None`, so the embedding's result type `Option β` has no error branch at all —
nothing can propagate past the contract boundary. -/

/-- A Python agent `process` implementation: returns an output (`ok`) or
raises (`error`). -/
def AgentProcess (α β : Type) := α → Except String β

/-- `BaseAgent.safe_process` of `agents/base_agent.py`: run `process`, map a
raise to `None`. -/
def safe_process {α β : Type} (process : AgentProcess α β) (input_data : α) :
    Option β :=
  match process input_data with
  | .ok result => some result
  | .error _ => none

/-! ## Pipeline coordinator (`orchestrator/main.py` `run_pipeline`)

The agent `process` implementations are parameters (they are external
capability providers); `uuid.uuid4()` and `datetime.now` become the explicit
`fresh_id` / `now` arguments.  Python dict payloads the coordinator forwards
without inspecting are embedded as association lists of strings. -/

/-- An opaque JSON-ish dict payload the coordinator never inspects. -/
def PyDict := List (String × String)
deriving DecidableEq

/-- `CustomerRequest` of `api/schemas.py` (fields the coordinator reads). -/
structure CustomerRequest where
  conversation_id : Option String := none
  customer_id : String
  account_id : Option String := none
  customer_message : String
  channel : ChannelType := .chat
  conversation_history : List String := []
  customer_feedback : Option PyDict := none
  account_data : Option PyDict := none
  usage_logs : Option (List PyDict) := none

/-- `ChannelType.value` (the enum's string payload). -/
def ChannelType.value : ChannelType → String
  | .chat => "chat"
  | .email => "email"
  | .social => "social"

/-- `SupportedLanguage.value` (the enum's string payload). -/
def SupportedLanguage.value : SupportedLanguage → String
  | .en => "en"
  | .ar => "ar"

/-- `OCSInput` of `api/schemas.py`. -/
structure OCSInput where
  interaction_id : String
  customer_message : String
  conversation_context : ContextSnapshot
  channel : ChannelType := .chat
  language : SupportedLanguage := .en

/-- `KFOInput` of `api/schemas.py`. -/
structure KFOInput where
  interaction_id : String
  query_text : String
  top_k : Nat := 5
  language : SupportedLanguage := .en

/-- `EIAInput` of `api/schemas.py`. -/
structure EIAInput where
  interaction_id : String
  conversation_text : String
  conversation_history : List String := []

/-- `PIRInput` of `api/schemas.py`. -/
structure PIRInput where
  interaction_id : String
  account_id : String
  account_data : PyDict := []
  usage_logs : List PyDict := []

/-! ## Conversation context store (`orchestrator/context_manager.py`)

The SQLAlchemy `Conversation` row and the DB session are embedded as a pure
map from conversation id to row; each method becomes a state transformer.
`datetime.now` and `uuid.uuid4()` are passed in explicitly (`now`,
`fresh_id`). -/

/-- The JSON `context` column content as written by `ContextManager`
(`db/models.py` `Conversation.context`). -/
structure ConvContextDict where
  history : List HistoryEntry
  previous_intents : List String
  emotion_trend : List String
  turn_count : Int
  unresolved_turns : Int
deriving DecidableEq, Repr

/-- The `ctx.get(key, default)` fallbacks of context_manager.py: an absent or
`None` context column behaves as the empty dict. -/
def emptyContextDict : ConvContextDict :=
  { history := [], previous_intents := [], emotion_trend := []
    turn_count := 0, unresolved_turns := 0 }

/-- The `conversations` row of `db/models.py` (fields the core touches). -/
structure Conversation where
  id : String
  customer_id : String
  channel : String
  language : String := "en"
  context : Option ConvContextDict := none
  is_escalated : Bool := false
  updated_at : String := ""
deriving DecidableEq, Repr

/-- The backing store: conversation id to row, `none` when no row exists. -/
def Store := String → Option Conversation

/-- Write one row back (primary-key upsert). -/
def Store.put (s : Store) (conv : Conversation) : Store :=
  fun id => if id = conv.id then some conv else s id

/-- Python truthiness of the `Optional[str] conversation_id` argument:
`if conversation_id:` is false for `None` and for the empty string. -/
def truthy : Option String → Bool
  | none => false
  | some s => !(s = "")

/-- Snapshot dict built from an existing row (context_manager.py lines 47–58). -/
def snapshotOf (conv : Conversation) : ContextSnapshot :=
  let ctx := conv.context.getD emptyContextDict
  { conversation_id := conv.id
    customer_id := conv.customer_id
    channel := conv.channel
    language := conv.language
    history := ctx.history
    previous_intents := ctx.previous_intents
    emotion_trend := ctx.emotion_trend
    is_escalated := conv.is_escalated
    turn_count := ctx.turn_count
    unresolved_turns := ctx.unresolved_turns }

/-- The freshly created row committed by `get_or_create` (context_manager.py
lines 60–75): zeroed context, default language "en", not escalated. -/
def newConv (new_id customer_id channel : String) : Conversation :=
  { id := new_id
    customer_id := customer_id
    channel := channel
    context := some emptyContextDict }

/-- `ContextManager.get_or_create`: return the snapshot of an existing row, or
create a zeroed one (`fresh_id` stands for `str(uuid.uuid4())`). -/
def get_or_create (s : Store) (conversation_id : Option String)
    (customer_id : String) (channel : String) (fresh_id : String) :
    ContextSnapshot × Store :=
  match if truthy conversation_id then s (conversation_id.getD "") else none with
  | some conv => (snapshotOf conv, s)
  | none =>
    let new_id := if truthy conversation_id then conversation_id.getD "" else fresh_id
    let conv : Conversation := newConv new_id customer_id channel
    ({ conversation_id := new_id
       customer_id := customer_id
       channel := channel
       language := "en"
       history := []
       previous_intents := []
       emotion_trend := []
       is_escalated := false
       turn_count := 0
       unresolved_turns := 0 }, s.put conv)

/-- The `response_data` dict passed to `ContextManager.update`; every key is
read with `.get(key, default)`, so each field is optional. -/
structure ResponseData where
  customer_message : Option String := none
  response_text : Option String := none
  intent : Option String := none
  dominant_emotion : Option String := none
  escalation_flag : Option Bool := none
  language : Option String := none
deriving DecidableEq, Repr

/-- Python `l[-n:]`: the trailing `n` elements (the whole list when shorter). -/
def takeLast {α : Type} (n : Nat) (l : List α) : List α :=
  l.drop (l.length - n)

/-- The customer-role history entry appended by `update` (lines 109–113). -/
def customerEntry (response_data : ResponseData) (now : String) : HistoryEntry :=
  { role := "customer", text := response_data.customer_message.getD ""
    timestamp := now }

/-- The assistant-role history entry appended by `update` (lines 114–118). -/
def assistantEntry (response_data : ResponseData) (now : String) : HistoryEntry :=
  { role := "assistant", text := response_data.response_text.getD ""
    timestamp := now }

/-- The new context dict computed by `ContextManager.update` (context_manager.py
lines 107–142): append two history entries, append the turn's intent and
dominant emotion to the trend sequences, cap (history to the last 20, trends
to the last 10), bump `turn_count`, recompute `unresolved_turns` (increment
when the resolved intent is unresolved-like, else reset to 0). -/
def updatedContext (ctx : ConvContextDict) (response_data : ResponseData)
    (now : String) : ConvContextDict :=
  let history := ctx.history ++
    [customerEntry response_data now, assistantEntry response_data now]
  let previous_intents := ctx.previous_intents ++ [response_data.intent.getD "unknown"]
  let emotion_trend := ctx.emotion_trend ++ [response_data.dominant_emotion.getD "neutral"]
  let turn_count := ctx.turn_count + 1
  let intent := response_data.intent.getD "unknown"
  let unresolved_turns :=
    if intent = "unknown" ∨ intent = "unclear" ∨ intent = "unresolved" then
      ctx.unresolved_turns + 1
    else 0
  { history := takeLast 20 history
    previous_intents := takeLast 10 previous_intents
    emotion_trend := takeLast 10 emotion_trend
    turn_count := turn_count
    unresolved_turns := unresolved_turns }

/-- The row as rewritten by `update` (context_manager.py lines 136–145):
new context, `language` overwritten when supplied, `is_escalated` overwritten
(default `False`), `updated_at` refreshed. -/
def updatedConv (conv : Conversation) (response_data : ResponseData)
    (now : String) : Conversation :=
  { conv with
    context := some (updatedContext (conv.context.getD emptyContextDict) response_data now)
    language := response_data.language.getD conv.language
    is_escalated := response_data.escalation_flag.getD false
    updated_at := now }

/-- `ContextManager.update` of context_manager.py lines 90–148: no-op when the
row is missing, else commit the rewritten row. -/
def update (s : Store) (conversation_id : String) (response_data : ResponseData)
    (now : String) : Store :=
  match s conversation_id with
  | none => s
  | some conv => s.put (updatedConv conv response_data now)

/-! ## Rate limiter (`api/middleware.py` `RateLimitMiddleware`)

`time.time()` timestamps are embedded as rationals.  `dispatch` first rewrites
the client's log to the entries still inside the trailing window, then either
rejects with the 429 response (without calling the inner handler) or records
`now` and admits. -/

/-- Outcome of one middleware dispatch: the inner handler's response, or the
distinguishable 429 rate-limited response. -/
inductive DispatchResult (α : Type) where
  | ok (response : α)
  | rateLimited
deriving DecidableEq, Repr

/-- `RateLimitMiddleware` state: the ceiling, the window length and the
per-client timestamp log (`defaultdict(list)` — absent clients read as `[]`). -/
structure RateLimiter where
  max_requests : Nat := 60
  window_seconds : ℚ := 60
  requests : String → List ℚ

/-- Replace one client's timestamp list. -/
def RateLimiter.setClient (rl : RateLimiter) (client : String) (ts : List ℚ) :
    RateLimiter :=
  { rl with requests := fun c => if c = client then ts else rl.requests c }

/-- `RateLimitMiddleware.dispatch` of `api/middleware.py` lines 60–79, with the
inner `call_next` result passed as a value (the pipeline runs only on
admission). -/
def rl_dispatch {α : Type} (rl : RateLimiter) (client_ip : String) (now : ℚ)
    (call_next : α) : DispatchResult α × RateLimiter :=
  let kept := (rl.requests client_ip).filter (fun ts => now - ts < rl.window_seconds)
  let rl := rl.setClient client_ip kept
  if rl.max_requests ≤ kept.length then
    (.rateLimited, rl)
  else
    (.ok call_next, rl.setClient client_ip (kept ++ [now]))

/-! ## The coordinator (`run_pipeline` of `orchestrator/main.py`) -/

/-- `SupportedLanguage.EN` member alias (Python enum member access). -/
def SupportedLanguage.EN : SupportedLanguage := .en

/-- The four synchronous capability providers the coordinator invokes (the
deferred FAN step is scheduled as a background task after the response is
computed, so it does not contribute to the synchronous result). -/
structure PipelineAgents where
  ocs : AgentProcess OCSInput OCSOutput
  kfo : AgentProcess KFOInput KFOOutput
  eia : AgentProcess EIAInput EIAOutput
  pir : AgentProcess PIRInput PIROutput

/-- `run_pipeline` of `orchestrator/main.py` lines 80–230: load or create the
context, invoke OCS → KFO → EIA → PIR through `safe_process` (PIR only when an
account id is supplied and truthy — a structural skip), aggregate, persist the
updated context.  Returns the response together with the updated store. -/
def run_pipeline (agents : PipelineAgents) (request : CustomerRequest)
    (store : Store) (interaction_id : String) (fresh_id : String) (now : String) :
    OrchestratorResponse × Store :=
  let loaded := get_or_create store request.conversation_id request.customer_id
    request.channel.value fresh_id
  let context := loaded.1
  let s1 := loaded.2
  let conversation_id := context.conversation_id
  -- Step 1: OCS
  let ocs_input : OCSInput :=
    { interaction_id := interaction_id
      customer_message := request.customer_message
      conversation_context := context
      channel := request.channel }
  let ocs_output := safe_process agents.ocs ocs_input
  -- main.py lines 120–122: detected language defaults to EN
  let detected_language :=
    match ocs_output with
    | some o => o.language
    | none => SupportedLanguage.EN
  -- Step 2: KFO (query derived from the OCS intent when present)
  let query_text :=
    match ocs_output with
    | some o => o.intent ++ " " ++ request.customer_message
    | none => request.customer_message
  let kfo_input : KFOInput :=
    { interaction_id := interaction_id
      query_text := query_text
      top_k := 5
      language := detected_language }
  let kfo_output := safe_process agents.kfo kfo_input
  -- Step 3: EIA
  let eia_input : EIAInput :=
    { interaction_id := interaction_id
      conversation_text := request.customer_message
      conversation_history := request.conversation_history }
  let eia_output := safe_process agents.eia eia_input
  -- Step 4: PIR, structurally skipped when no account id is supplied
  let pir_output :=
    if truthy request.account_id then
      safe_process agents.pir
        { interaction_id := interaction_id
          account_id := request.account_id.getD ""
          account_data := request.account_data.getD []
          usage_logs := request.usage_logs.getD [] }
    else none
  -- Steps 5–6: escalation gate + unified response assembly
  let response := aggregate_outputs interaction_id now request.customer_id
    request.channel detected_language context ocs_output kfo_output eia_output
    pir_output none
  -- Persist the updated conversation context
  let s2 := update s1 conversation_id
    { customer_message := some request.customer_message
      response_text := some response.response_text
      intent := some response.intent
      dominant_emotion := some response.dominant_emotion
      escalation_flag := some response.escalation_flag
      language := some response.language.value } now
  (response, s2)

/-! ## Iterated updates and store invariants (for the capping claims) -/

/-- Apply `ContextManager.update` once per listed turn (each turn carries its
`response_data` and its wall-clock instant). -/
def updateMany (s : Store) (conversation_id : String)
    (turns : List (ResponseData × String)) : Store :=
  turns.foldl (fun st t => update st conversation_id t.1 t.2) s

/-- The capping / non-negativity invariant of one context record. -/
def ContextInv (ctx : ConvContextDict) : Prop :=
  ctx.history.length ≤ 20 ∧ ctx.previous_intents.length ≤ 10 ∧
  ctx.emotion_trend.length ≤ 10 ∧ 0 ≤ ctx.turn_count ∧ 0 ≤ ctx.unresolved_turns

/-- Every stored context record satisfies the capping invariant. -/
def StoreInv (s : Store) : Prop :=
  ∀ cid conv, s cid = some conv → ∀ ctx, conv.context = some ctx → ContextInv ctx

/-- Rows are keyed by their own primary key (`Conversation.id` is the table's
primary key, so a row selected `where id == cid` has `id = cid`). -/
def StoreKeyInv (s : Store) : Prop :=
  ∀ cid conv, s cid = some conv → conv.id = cid

end CustomerCareAI

namespace CustomerCareAI

/-! ## Firing predicates for the seven escalation checks -/

/-- Whether check 1 (explicit escalation flag) fires. -/
def fires_explicit (ocs_output : Option OCSOutput) : Bool :=
  !(check_explicit_flag ocs_output).isEmpty

/-- Whether check 2 (escalation-request intent) fires. -/
def fires_intent (ocs_output : Option OCSOutput) : Bool :=
  !(check_intent_label ocs_output).isEmpty

/-- Whether check 3 (sentiment below threshold) fires. -/
def fires_sentiment (eia_output : Option EIAOutput) : Bool :=
  !(check_sentiment eia_output).isEmpty

/-- Whether check 4 (consecutive trigger emotions) fires. -/
def fires_consecutive (eia_output : Option EIAOutput) (context : ContextSnapshot) : Bool :=
  !(check_consecutive eia_output context).isEmpty

/-- Whether check 5 (EIA internal flag) fires. -/
def fires_eia_flag (eia_output : Option EIAOutput) : Bool :=
  !(check_eia_flag eia_output).isEmpty

/-- Whether check 6 (critical alert) fires. -/
def fires_critical (pir_output : Option PIROutput) : Bool :=
  !(check_critical_alert pir_output).isEmpty

/-- Whether check 7 (unresolved turns) fires. -/
def fires_unresolved (context : ContextSnapshot) : Bool :=
  !(check_unresolved context).isEmpty

/-! ## Shared lemmas about the escalation checks -/

lemma map_check_explicit (ocs : Option OCSOutput) :
    (check_explicit_flag ocs).map EscalationReason.checkIndex =
      if fires_explicit ocs then [1] else [] := by
  rcases ocs with _ | o <;> simp [check_explicit_flag, fires_explicit] <;>
    split_ifs <;> simp_all [EscalationReason.checkIndex]

lemma map_check_intent (ocs : Option OCSOutput) :
    (check_intent_label ocs).map EscalationReason.checkIndex =
      if fires_intent ocs then [2] else [] := by
  rcases ocs with _ | o <;> simp [check_intent_label, fires_intent] <;>
    split_ifs <;> simp_all [EscalationReason.checkIndex]

lemma map_check_sentiment (eia : Option EIAOutput) :
    (check_sentiment eia).map EscalationReason.checkIndex =
      if fires_sentiment eia then [3] else [] := by
  rcases eia with _ | e <;> simp [check_sentiment, fires_sentiment] <;>
    split_ifs <;> simp_all [EscalationReason.checkIndex]

lemma map_check_consecutive (eia : Option EIAOutput) (ctx : ContextSnapshot) :
    (check_consecutive eia ctx).map EscalationReason.checkIndex =
      if fires_consecutive eia ctx then [4] else [] := by
  rcases eia with _ | e <;> simp [check_consecutive, fires_consecutive] <;>
    split_ifs <;> simp_all [EscalationReason.checkIndex]

lemma map_check_eia_flag (eia : Option EIAOutput) :
    (check_eia_flag eia).map EscalationReason.checkIndex =
      if fires_eia_flag eia then [5] else [] := by
  rcases eia with _ | e <;> simp [check_eia_flag, fires_eia_flag] <;>
    split_ifs <;> simp_all [EscalationReason.checkIndex]

lemma map_check_critical (pir : Option PIROutput) :
    (check_critical_alert pir).map EscalationReason.checkIndex =
      if fires_critical pir then [6] else [] := by
  rcases pir with _ | p
  · simp [check_critical_alert, fires_critical]
  · rcases h : p.proactive_alerts.find? (fun a => a.severity = SeverityLevel.critical) with _ | alert <;>
      simp [check_critical_alert, fires_critical, h, EscalationReason.checkIndex]

lemma map_check_unresolved (ctx : ContextSnapshot) :
    (check_unresolved ctx).map EscalationReason.checkIndex =
      if fires_unresolved ctx then [7] else [] := by
  simp only [check_unresolved, fires_unresolved]
  split_ifs with h1 <;> simp_all [check_unresolved, EscalationReason.checkIndex]

lemma fires_explicit_iff (ocs : Option OCSOutput) :
    fires_explicit ocs = true ↔ ∃ o, ocs = some o ∧ o.escalation_flag = true := by
  rcases ocs with _ | o <;> simp [fires_explicit, check_explicit_flag] <;>
    split_ifs with h <;> simp_all

lemma fires_intent_iff (ocs : Option OCSOutput) :
    fires_intent ocs = true ↔ ∃ o, ocs = some o ∧ o.intent = "escalation_request" := by
  rcases ocs with _ | o <;> simp [fires_intent, check_intent_label] <;>
    split_ifs with h <;> simp_all

lemma fires_sentiment_iff (eia : Option EIAOutput) :
    fires_sentiment eia = true ↔ ∃ e, eia = some e ∧ e.sentiment_score < sentimentThreshold := by
  rcases eia with _ | e <;> simp [fires_sentiment, check_sentiment] <;>
    split_ifs with h <;> simp_all

lemma fires_consecutive_iff (eia : Option EIAOutput) (ctx : ContextSnapshot) :
    fires_consecutive eia ctx = true ↔
      ∃ e, eia = some e ∧
        consecutiveRequired ≤ trailingTriggerCount (ctx.emotion_trend ++ [e.dominant_emotion]) := by
  rcases eia with _ | e <;> simp [fires_consecutive, check_consecutive] <;>
    split_ifs with h <;> simp_all

lemma fires_eia_flag_iff (eia : Option EIAOutput) :
    fires_eia_flag eia = true ↔ ∃ e, eia = some e ∧ e.escalation_flag = true := by
  rcases eia with _ | e <;> simp [fires_eia_flag, check_eia_flag] <;>
    split_ifs with h <;> simp_all

lemma fires_critical_iff (pir : Option PIROutput) :
    fires_critical pir = true ↔
      ∃ p, pir = some p ∧ ∃ a ∈ p.proactive_alerts, a.severity = SeverityLevel.critical := by
  rcases pir with _ | p
  · simp [fires_critical, check_critical_alert]
  · rcases h : p.proactive_alerts.find? (fun a => a.severity = SeverityLevel.critical) with _ | alert
    · simp only [fires_critical, check_critical_alert, h]
      simp only [List.find?_eq_none] at h
      simp_all
    · have hmem := List.mem_of_find?_eq_some h
      have hp := List.find?_some h
      simp only [fires_critical, check_critical_alert, h]
      simp_all
      exact ⟨alert, hmem, by simpa using hp⟩

lemma fires_unresolved_iff (ctx : ContextSnapshot) :
    fires_unresolved ctx = true ↔ (maxUnresolvedTurns : Int) ≤ ctx.unresolved_turns := by
  simp only [fires_unresolved, check_unresolved]
  split_ifs with h <;> simp_all

lemma sorted_seven_segments (f1 f2 f3 f4 f5 f6 f7 : Bool) :
    List.Sorted (· < ·)
      (((if f1 then [1] else []) ++ (if f2 then [2] else []) ++
        (if f3 then [3] else []) ++ (if f4 then [4] else []) ++
        (if f5 then [5] else []) ++ (if f6 then [6] else []) ++
        (if f7 then [7] else [])) : List Nat) := by
  cases f1 <;> cases f2 <;> cases f3 <;> cases f4 <;> cases f5 <;> cases f6 <;> cases f7 <;>
    decide

lemma mem_ite_singleton (a j : Nat) (b : Bool) :
    (a ∈ if b = true then [j] else ([] : List Nat)) ↔ b = true ∧ a = j := by
  cases b <;> simp

lemma mem_seven_segments (a : Nat) (f1 f2 f3 f4 f5 f6 f7 : Bool) :
    (a ∈ (((if f1 then [1] else []) ++ (if f2 then [2] else []) ++
        (if f3 then [3] else []) ++ (if f4 then [4] else []) ++
        (if f5 then [5] else []) ++ (if f6 then [6] else []) ++
        (if f7 then [7] else [])) : List Nat)) ↔
      (f1 = true ∧ a = 1) ∨ (f2 = true ∧ a = 2) ∨ (f3 = true ∧ a = 3) ∨
      (f4 = true ∧ a = 4) ∨ (f5 = true ∧ a = 5) ∨ (f6 = true ∧ a = 6) ∨
      (f7 = true ∧ a = 7) := by
  simp only [List.mem_append, mem_ite_singleton]
  tauto

lemma seven_segments_ne_nil (f1 f2 f3 f4 f5 f6 f7 : Bool) :
    ((((if f1 then [1] else []) ++ (if f2 then [2] else []) ++
        (if f3 then [3] else []) ++ (if f4 then [4] else []) ++
        (if f5 then [5] else []) ++ (if f6 then [6] else []) ++
        (if f7 then [7] else [])) : List Nat) ≠ []) ↔
      (f1 = true ∨ f2 = true ∨ f3 = true ∨ f4 = true ∨ f5 = true ∨ f6 = true ∨
       f7 = true) := by
  cases f1 <;> cases f2 <;> cases f3 <;> cases f4 <;> cases f5 <;> cases f6 <;> cases f7 <;>
    decide

lemma checkEscalation_idx_map (ocs : Option OCSOutput) (eia : Option EIAOutput)
    (pir : Option PIROutput) (ctx : ContextSnapshot) :
    (checkEscalation ocs eia pir ctx).2.map EscalationReason.checkIndex =
      ((if fires_explicit ocs then [1] else []) ++ (if fires_intent ocs then [2] else []) ++
       (if fires_sentiment eia then [3] else []) ++ (if fires_consecutive eia ctx then [4] else []) ++
       (if fires_eia_flag eia then [5] else []) ++ (if fires_critical pir then [6] else []) ++
       (if fires_unresolved ctx then [7] else [])) := by
  simp only [checkEscalation, List.map_append, map_check_explicit, map_check_intent,
    map_check_sentiment, map_check_consecutive, map_check_eia_flag, map_check_critical,
    map_check_unresolved]

lemma checkEscalation_fst_iff (ocs : Option OCSOutput) (eia : Option EIAOutput)
    (pir : Option PIROutput) (ctx : ContextSnapshot) :
    (checkEscalation ocs eia pir ctx).1 = true ↔
      (checkEscalation ocs eia pir ctx).2 ≠ [] := by
  simp [checkEscalation]

end CustomerCareAI

namespace CustomerCareAI

/-- C1: for every combination of agent outcomes and context, the escalation
evaluation escalates exactly when at least one of the seven checks fires; the
reason list carries one reason per firing check (all of them, not only the
first), listed in the fixed evaluation order 1–7: explicit flag,
escalation-request intent, sentiment strictly below −0.65, consecutive trigger
emotions, EIA internal flag, critical-severity alert, unresolved turns ≥ 3. -/
theorem escalation_policy_seven_checks (ocs : Option OCSOutput) (eia : Option EIAOutput)
    (pir : Option PIROutput) (ctx : ContextSnapshot) :
    ((checkEscalation ocs eia pir ctx).1 = true ↔
      (∃ o, ocs = some o ∧ o.escalation_flag = true) ∨
      (∃ o, ocs = some o ∧ o.intent = "escalation_request") ∨
      (∃ e, eia = some e ∧ e.sentiment_score < sentimentThreshold) ∨
      (∃ e, eia = some e ∧
        consecutiveRequired ≤ trailingTriggerCount (ctx.emotion_trend ++ [e.dominant_emotion])) ∨
      (∃ e, eia = some e ∧ e.escalation_flag = true) ∨
      (∃ p, pir = some p ∧ ∃ a ∈ p.proactive_alerts, a.severity = SeverityLevel.critical) ∨
      ((maxUnresolvedTurns : Int) ≤ ctx.unresolved_turns)) ∧
    List.Sorted (· < ·)
      ((checkEscalation ocs eia pir ctx).2.map EscalationReason.checkIndex) ∧
    ((1 ∈ (checkEscalation ocs eia pir ctx).2.map EscalationReason.checkIndex) ↔
      ∃ o, ocs = some o ∧ o.escalation_flag = true) ∧
    ((2 ∈ (checkEscalation ocs eia pir ctx).2.map EscalationReason.checkIndex) ↔
      ∃ o, ocs = some o ∧ o.intent = "escalation_request") ∧
    ((3 ∈ (checkEscalation ocs eia pir ctx).2.map EscalationReason.checkIndex) ↔
      ∃ e, eia = some e ∧ e.sentiment_score < sentimentThreshold) ∧
    ((4 ∈ (checkEscalation ocs eia pir ctx).2.map EscalationReason.checkIndex) ↔
      ∃ e, eia = some e ∧
        consecutiveRequired ≤ trailingTriggerCount (ctx.emotion_trend ++ [e.dominant_emotion])) ∧
    ((5 ∈ (checkEscalation ocs eia pir ctx).2.map EscalationReason.checkIndex) ↔
      ∃ e, eia = some e ∧ e.escalation_flag = true) ∧
    ((6 ∈ (checkEscalation ocs eia pir ctx).2.map EscalationReason.checkIndex) ↔
      ∃ p, pir = some p ∧ ∃ a ∈ p.proactive_alerts, a.severity = SeverityLevel.critical) ∧
    ((7 ∈ (checkEscalation ocs eia pir ctx).2.map EscalationReason.checkIndex) ↔
      (maxUnresolvedTurns : Int) ≤ ctx.unresolved_turns) := by
  have hmap := checkEscalation_idx_map ocs eia pir ctx
  refine ⟨?_, ?_, ?_, ?_, ?_, ?_, ?_, ?_, ?_⟩
  · rw [checkEscalation_fst_iff]
    have h2 : (checkEscalation ocs eia pir ctx).2 = [] ↔
        (checkEscalation ocs eia pir ctx).2.map EscalationReason.checkIndex = [] := by
      simp
    rw [Ne, h2, hmap, ← Ne, seven_segments_ne_nil, fires_explicit_iff, fires_intent_iff,
      fires_sentiment_iff, fires_consecutive_iff, fires_eia_flag_iff, fires_critical_iff,
      fires_unresolved_iff]
  · rw [hmap]; exact sorted_seven_segments _ _ _ _ _ _ _
  · rw [hmap, mem_seven_segments, ← fires_explicit_iff]
    simp
  · rw [hmap, mem_seven_segments, ← fires_intent_iff]
    simp
  · rw [hmap, mem_seven_segments, ← fires_sentiment_iff]
    simp
  · rw [hmap, mem_seven_segments, ← fires_consecutive_iff]
    simp
  · rw [hmap, mem_seven_segments, ← fires_eia_flag_iff]
    simp
  · rw [hmap, mem_seven_segments, ← fires_critical_iff]
    simp
  · rw [hmap, mem_seven_segments, ← fires_unresolved_iff]
    simp

end CustomerCareAI

namespace CustomerCareAI

/-! ## Trailing-trigger-count characterization -/

lemma two_le_trailing_iff (l : List String) :
    2 ≤ trailingTriggerCount l ↔
      ∃ init x y, l = init ++ [x, y] ∧ x ∈ triggerEmotions ∧ y ∈ triggerEmotions := by
  unfold trailingTriggerCount
  constructor
  · intro h
    match hr : l.reverse with
    | [] => rw [hr] at h; simp at h
    | [a] =>
      rw [hr] at h
      by_cases ha : a ∈ triggerEmotions <;> simp [List.takeWhile, ha] at h
    | a :: b :: t =>
      rw [hr] at h
      by_cases ha : a ∈ triggerEmotions
      · by_cases hb : b ∈ triggerEmotions
        · refine ⟨t.reverse, b, a, ?_, hb, ha⟩
          have : l = (a :: b :: t).reverse := by rw [← hr, List.reverse_reverse]
          simp [this]
        · simp [List.takeWhile_cons, ha, hb] at h
      · simp [List.takeWhile_cons, ha] at h
  · rintro ⟨init, x, y, rfl, hx, hy⟩
    rw [List.reverse_append]
    simp only [List.reverse_cons, List.reverse_nil, List.nil_append, List.cons_append,
      List.append_nil]
    rw [List.takeWhile_cons]
    simp only [hx, hy, decide_eq_true_eq, if_pos]
    simp [List.takeWhile_cons, hx, hy]

lemma trailing_le_one_of_no_trigger (trend : List String) (dom : String)
    (h : ∀ x ∈ trend, x ∉ triggerEmotions) :
    trailingTriggerCount (trend ++ [dom]) ≤ 1 := by
  unfold trailingTriggerCount
  rw [List.reverse_append]
  simp only [List.reverse_cons, List.reverse_nil, List.nil_append, List.singleton_append]
  by_cases hd : dom ∈ triggerEmotions
  · rw [List.takeWhile_cons]
    simp only [hd, decide_eq_true_eq, if_pos]
    match ht : trend.reverse with
    | [] => simp
    | a :: t =>
      have ha : a ∈ trend := by
        rw [← List.mem_reverse, ht]; exact List.mem_cons_self a t
      rw [List.takeWhile_cons]
      simp [h a ha]
  · rw [List.takeWhile_cons]
    simp [hd]

/-- C3: with the sentiment outcome present, the consecutive-emotion check
fires exactly when at least two (the default N) trailing labels of
`emotion_trend + [dominant emotion]` are trigger emotions, equivalently
exactly when that list ends in two trigger labels; two consecutive
trigger-emotion turns escalate with a consecutive-emotion reason, while a
single trigger turn with no trigger in the trend does not fire this rule. -/
theorem consecutive_emotion_check (ocs : Option OCSOutput) (pir : Option PIROutput)
    (e : EIAOutput) (ctx : ContextSnapshot) :
    ((4 ∈ (checkEscalation ocs (some e) pir ctx).2.map EscalationReason.checkIndex) ↔
      consecutiveRequired ≤ trailingTriggerCount (ctx.emotion_trend ++ [e.dominant_emotion])) ∧
    ((4 ∈ (checkEscalation ocs (some e) pir ctx).2.map EscalationReason.checkIndex) ↔
      ∃ init x y, ctx.emotion_trend ++ [e.dominant_emotion] = init ++ [x, y] ∧
        x ∈ triggerEmotions ∧ y ∈ triggerEmotions) ∧
    ((∃ pre prev, ctx.emotion_trend = pre ++ [prev] ∧ prev ∈ triggerEmotions ∧
        e.dominant_emotion ∈ triggerEmotions) →
      (checkEscalation ocs (some e) pir ctx).1 = true ∧
      4 ∈ (checkEscalation ocs (some e) pir ctx).2.map EscalationReason.checkIndex) ∧
    ((∀ x ∈ ctx.emotion_trend, x ∉ triggerEmotions) →
      4 ∉ (checkEscalation ocs (some e) pir ctx).2.map EscalationReason.checkIndex) := by
  have hmap := checkEscalation_idx_map ocs (some e) pir ctx
  have h1 : (4 ∈ (checkEscalation ocs (some e) pir ctx).2.map EscalationReason.checkIndex) ↔
      consecutiveRequired ≤ trailingTriggerCount (ctx.emotion_trend ++ [e.dominant_emotion]) := by
    rw [hmap, mem_seven_segments]
    have hff := fires_consecutive_iff (some e) ctx
    simp only [Option.some.injEq] at hff
    constructor
    · rintro (⟨hf, h⟩ | ⟨hf, h⟩ | ⟨hf, h⟩ | ⟨hf, h⟩ | ⟨hf, h⟩ | ⟨hf, h⟩ | ⟨hf, h⟩) <;>
        first
          | (exact absurd h (by decide))
          | (obtain ⟨e', he', hc⟩ := hff.mp hf; subst he'; exact hc)
    · intro h
      refine Or.inr (Or.inr (Or.inr (Or.inl ⟨?_, rfl⟩)))
      exact hff.mpr ⟨e, rfl, h⟩
  have h2 : (4 ∈ (checkEscalation ocs (some e) pir ctx).2.map EscalationReason.checkIndex) ↔
      ∃ init x y, ctx.emotion_trend ++ [e.dominant_emotion] = init ++ [x, y] ∧
        x ∈ triggerEmotions ∧ y ∈ triggerEmotions := by
    rw [h1]
    exact two_le_trailing_iff _
  refine ⟨h1, h2, ?_, ?_⟩
  · rintro ⟨pre, prev, htrend, hprev, hdom⟩
    have hmem : 4 ∈ (checkEscalation ocs (some e) pir ctx).2.map EscalationReason.checkIndex := by
      rw [h2]
      exact ⟨pre, prev, e.dominant_emotion, by rw [htrend]; simp, hprev, hdom⟩
    refine ⟨?_, hmem⟩
    rw [checkEscalation_fst_iff]
    intro hnil
    rw [hnil] at hmem
    simp at hmem
  · intro hno
    rw [h1]
    intro hle
    have hb := trailing_le_one_of_no_trigger ctx.emotion_trend e.dominant_emotion hno
    have : consecutiveRequired ≤ 1 := le_trans hle hb
    simp [consecutiveRequired] at this

/-- A zeroed context snapshot, as returned for a fresh conversation. -/
def plainCtx : ContextSnapshot :=
  { conversation_id := "conv-1", customer_id := "cust-1", channel := "chat"
    language := "en", history := [], previous_intents := []
    emotion_trend := [], is_escalated := false, turn_count := 0
    unresolved_turns := 0 }

/-- A context whose emotion trend ends in one trigger emotion. -/
def angerTrendCtx : ContextSnapshot :=
  { plainCtx with
    emotion_trend := ["anger"]
    previous_intents := ["unknown"]
    turn_count := 1 }

/-- Witness for `consecutive_emotion_check`: with the previous turn's emotion
"anger" in the trend and current dominant emotion "anger" the policy escalates
with a consecutive-emotion reason; with an all-neutral trend it does not fire. -/
theorem consecutive_emotion_check_witness :
    (checkEscalation none (some { dominant_emotion := "anger" }) none angerTrendCtx).1 = true ∧
    4 ∈ (checkEscalation none (some { dominant_emotion := "anger" }) none angerTrendCtx).2.map
      EscalationReason.checkIndex ∧
    4 ∉ (checkEscalation none (some { dominant_emotion := "anger" }) none plainCtx).2.map
      EscalationReason.checkIndex := by
  have h1 := consecutive_emotion_check none none { dominant_emotion := "anger" } angerTrendCtx
  have h2 := consecutive_emotion_check none none { dominant_emotion := "anger" } plainCtx
  obtain ⟨hesc, hmem⟩ := h1.2.2.1 ⟨[], "anger", rfl, by decide, by decide⟩
  refine ⟨hesc, hmem, h2.2.2.2 ?_⟩
  intro x hx
  simp [plainCtx] at hx

end CustomerCareAI

namespace CustomerCareAI

/-! ## Aggregation invariants -/

lemma checkEscalation_fst_eq (ocs : Option OCSOutput) (eia : Option EIAOutput)
    (pir : Option PIROutput) (ctx : ContextSnapshot) :
    (checkEscalation ocs eia pir ctx).1 = !(checkEscalation ocs eia pir ctx).2.isEmpty := rfl

lemma aggregate_reason_isSome (interaction_id timestamp customer_id : String)
    (channel : ChannelType) (language : SupportedLanguage) (ctx : ContextSnapshot)
    (ocs : Option OCSOutput) (kfo : Option KFOOutput) (eia : Option EIAOutput)
    (pir : Option PIROutput) (fan : Option FANOutput) :
    (aggregate_outputs interaction_id timestamp customer_id channel language ctx
        ocs kfo eia pir fan).escalation_reason.isSome =
      (aggregate_outputs interaction_id timestamp customer_id channel language ctx
        ocs kfo eia pir fan).escalation_flag := by
  simp only [aggregate_outputs]
  rcases h : (checkEscalation ocs eia pir ctx).2.isEmpty <;>
    simp [h, checkEscalation_fst_eq]

/-- C6: aggregation with all five agent outcomes absent returns the degraded
defaults — empty text, intent "unknown", sentiment 0, emotion "neutral", empty
article and alert sequences — and the escalation flag is exactly the
context-only unresolved-turns check; in particular `unresolved_turns = 3`
escalates under the default maximum 3. -/
theorem aggregate_all_absent_defaults (interaction_id timestamp customer_id : String)
    (channel : ChannelType) (language : SupportedLanguage) (ctx : ContextSnapshot) :
    (aggregate_outputs interaction_id timestamp customer_id channel language ctx
        none none none none none).response_text = "" ∧
    (aggregate_outputs interaction_id timestamp customer_id channel language ctx
        none none none none none).intent = "unknown" ∧
    (aggregate_outputs interaction_id timestamp customer_id channel language ctx
        none none none none none).sentiment_score = 0 ∧
    (aggregate_outputs interaction_id timestamp customer_id channel language ctx
        none none none none none).dominant_emotion = "neutral" ∧
    (aggregate_outputs interaction_id timestamp customer_id channel language ctx
        none none none none none).suggested_faq_articles = [] ∧
    (aggregate_outputs interaction_id timestamp customer_id channel language ctx
        none none none none none).proactive_alerts = [] ∧
    (aggregate_outputs interaction_id timestamp customer_id channel language ctx
        none none none none none).escalation_flag = fires_unresolved ctx ∧
    (ctx.unresolved_turns = 3 →
      (aggregate_outputs interaction_id timestamp customer_id channel language ctx
        none none none none none).escalation_flag = true) := by
  refine ⟨rfl, rfl, rfl, rfl, rfl, rfl, ?_, ?_⟩
  · simp [aggregate_outputs, checkEscalation, check_explicit_flag, check_intent_label,
      check_sentiment, check_consecutive, check_eia_flag, check_critical_alert,
      fires_unresolved]
  · intro h
    simp [aggregate_outputs, checkEscalation, check_explicit_flag, check_intent_label,
      check_sentiment, check_consecutive, check_eia_flag, check_critical_alert,
      check_unresolved, h, maxUnresolvedTurns]

/-- The zeroed context after three unresolved turns. -/
def unresolvedCtx : ContextSnapshot := { plainCtx with unresolved_turns := 3 }

/-- Witness for `aggregate_all_absent_defaults`: three unresolved turns
escalate with every agent absent. -/
theorem aggregate_all_absent_defaults_witness :
    unresolvedCtx.unresolved_turns = 3 ∧
    (aggregate_outputs "i1" "t1" "cust-1" ChannelType.chat SupportedLanguage.en unresolvedCtx
        none none none none none).escalation_flag = true := by
  have h := aggregate_all_absent_defaults "i1" "t1" "cust-1" ChannelType.chat
    SupportedLanguage.en unresolvedCtx
  exact ⟨rfl, h.2.2.2.2.2.2.2 rfl⟩

/-- C10 (amended): each of the four synchronous agent-role slots of the
outcome log records the serialized output when present and the fixed
"skipped" marker when absent; the deferred feedback-analyze slot uses the
"pending_async" marker when absent. -/
theorem agent_log_markers (interaction_id timestamp customer_id : String)
    (channel : ChannelType) (language : SupportedLanguage) (ctx : ContextSnapshot)
    (ocs : Option OCSOutput) (kfo : Option KFOOutput) (eia : Option EIAOutput)
    (pir : Option PIROutput) (fan : Option FANOutput) :
    (aggregate_outputs interaction_id timestamp customer_id channel language ctx
        ocs kfo eia pir fan).agent_logs.ocs =
      (match ocs with | some o => .dump o | none => .status "skipped") ∧
    (aggregate_outputs interaction_id timestamp customer_id channel language ctx
        ocs kfo eia pir fan).agent_logs.kfo =
      (match kfo with | some k => .dump k | none => .status "skipped") ∧
    (aggregate_outputs interaction_id timestamp customer_id channel language ctx
        ocs kfo eia pir fan).agent_logs.eia =
      (match eia with | some e => .dump e | none => .status "skipped") ∧
    (aggregate_outputs interaction_id timestamp customer_id channel language ctx
        ocs kfo eia pir fan).agent_logs.pir =
      (match pir with | some p => .dump p | none => .status "skipped") ∧
    (aggregate_outputs interaction_id timestamp customer_id channel language ctx
        ocs kfo eia pir fan).agent_logs.fan =
      (match fan with | some f => .dump f | none => .status "pending_async") :=
  ⟨rfl, rfl, rfl, rfl, rfl⟩

/-- C10 counterexample: with the feedback-analyze outcome absent, its slot in
the outcome log is the "pending_async" marker, not the "skipped" marker the
claim asserts for all five roles. -/
theorem fan_absent_marker_not_skipped :
    (aggregate_outputs "i1" "t1" "cust-1" ChannelType.chat SupportedLanguage.en plainCtx
        none none none none none).agent_logs.fan = .status "pending_async" ∧
    (aggregate_outputs "i1" "t1" "cust-1" ChannelType.chat SupportedLanguage.en plainCtx
        none none none none none).agent_logs.fan ≠ .status "skipped" := by
  refine ⟨rfl, ?_⟩
  intro h
  simp [aggregate_outputs] at h

/-- C2: the contract wrapper returns the absent outcome whenever the wrapped
`process` raises (and the populated outcome when it returns), and the
coordinator's pipeline always yields a well-formed unified response — identity
fields propagated, escalation reason present exactly when the flag is set —
for every combination of agent behaviours. -/
theorem safe_process_isolation {α β : Type} (process : AgentProcess α β) (input : α)
    (agents : PipelineAgents) (request : CustomerRequest) (store : Store)
    (interaction_id fresh_id now : String) :
    (∀ msg, process input = Except.error msg → safe_process process input = none) ∧
    (∀ result, process input = Except.ok result → safe_process process input = some result) ∧
    ((run_pipeline agents request store interaction_id fresh_id now).1.interaction_id =
      interaction_id) ∧
    ((run_pipeline agents request store interaction_id fresh_id now).1.customer_id =
      request.customer_id) ∧
    ((run_pipeline agents request store interaction_id fresh_id now).1.channel =
      request.channel) ∧
    ((run_pipeline agents request store interaction_id fresh_id now).1.timestamp = now) ∧
    ((run_pipeline agents request store interaction_id fresh_id now).1.escalation_reason.isSome =
      (run_pipeline agents request store interaction_id fresh_id now).1.escalation_flag) := by
  refine ⟨?_, ?_, ?_, ?_, ?_, ?_, ?_⟩
  · intro msg h
    simp [safe_process, h]
  · intro result h
    simp [safe_process, h]
  · simp [run_pipeline, aggregate_outputs]
  · simp [run_pipeline, aggregate_outputs]
  · simp [run_pipeline, aggregate_outputs]
  · simp [run_pipeline, aggregate_outputs]
  · simp only [run_pipeline]
    exact aggregate_reason_isSome _ _ _ _ _ _ _ _ _ _ _

/-- Four capability providers that always raise. -/
def failingAgents : PipelineAgents :=
  { ocs := fun _ => .error "provider unavailable"
    kfo := fun _ => .error "provider unavailable"
    eia := fun _ => .error "provider unavailable"
    pir := fun _ => .error "provider unavailable" }

/-- A store holding no conversation rows. -/
def emptyStore : Store := fun _ => none

/-- A minimal customer request. -/
def exampleRequest : CustomerRequest :=
  { customer_id := "cust-1", customer_message := "hello" }

/-- Witness for `safe_process_isolation`: a forced provider failure yields the
absent outcome, and the pipeline with every provider failing still returns a
response with the request's identity fields. -/
theorem safe_process_isolation_witness :
    safe_process (fun _ => Except.error "boom" : AgentProcess Nat Nat) 0 = none ∧
    (run_pipeline failingAgents exampleRequest emptyStore "i1" "f1" "t1").1.customer_id =
      "cust-1" ∧
    (run_pipeline failingAgents exampleRequest emptyStore "i1" "f1" "t1").1.escalation_reason.isSome =
      (run_pipeline failingAgents exampleRequest emptyStore "i1" "f1" "t1").1.escalation_flag := by
  have h := safe_process_isolation (fun _ => Except.error "boom" : AgentProcess Nat Nat) 0
    failingAgents exampleRequest emptyStore "i1" "f1" "t1"
  exact ⟨h.1 "boom" rfl, h.2.2.2.1, h.2.2.2.2.2.2⟩

end CustomerCareAI

namespace CustomerCareAI

/-! ## Context-store lemmas -/

lemma takeLast_length_le {α : Type} (n : Nat) (l : List α) :
    (takeLast n l).length ≤ n := by
  unfold takeLast
  rw [List.length_drop]
  omega

lemma takeLast_suffix {α : Type} (n : Nat) (l : List α) :
    takeLast n l <:+ l :=
  List.drop_suffix _ _

lemma update_found (s : Store) (cid : String) (rd : ResponseData) (now : String)
    (conv : Conversation) (h : s cid = some conv) :
    update s cid rd now = s.put (updatedConv conv rd now) := by
  unfold update
  rw [h]

lemma update_missing (s : Store) (cid : String) (rd : ResponseData) (now : String)
    (h : s cid = none) :
    update s cid rd now = s := by
  unfold update
  rw [h]

lemma put_self (s : Store) (conv : Conversation) : (s.put conv) conv.id = some conv := by
  simp [Store.put]

lemma put_other (s : Store) (conv : Conversation) (cid : String) (h : cid ≠ conv.id) :
    (s.put conv) cid = s cid := by
  simp [Store.put, h]

lemma updatedConv_id (conv : Conversation) (rd : ResponseData) (now : String) :
    (updatedConv conv rd now).id = conv.id := rfl

lemma contextInv_empty : ContextInv emptyContextDict := by
  simp [ContextInv, emptyContextDict]

lemma contextInv_updatedContext (ctx : ConvContextDict) (rd : ResponseData) (now : String)
    (h : 0 ≤ ctx.turn_count ∧ 0 ≤ ctx.unresolved_turns) :
    ContextInv (updatedContext ctx rd now) := by
  unfold ContextInv updatedContext
  refine ⟨takeLast_length_le _ _, takeLast_length_le _ _, takeLast_length_le _ _, ?_, ?_⟩
  · simp only []
    omega
  · simp only []
    split_ifs <;> omega

lemma storeInv_update (s : Store) (h : StoreInv s) (cid : String) (rd : ResponseData)
    (now : String) : StoreInv (update s cid rd now) := by
  cases hc : s cid with
  | none => rw [update_missing s cid rd now hc]; exact h
  | some conv =>
    rw [update_found s cid rd now conv hc]
    intro cid' conv' hput ctx' hctx
    by_cases he : cid' = (updatedConv conv rd now).id
    · rw [he, put_self] at hput
      obtain rfl : conv' = updatedConv conv rd now := by
        injection hput with hv; exact hv.symm
      have hctx2 : ctx' = updatedContext (conv.context.getD emptyContextDict) rd now := by
        have hcx : (updatedConv conv rd now).context =
            some (updatedContext (conv.context.getD emptyContextDict) rd now) := rfl
        rw [hcx] at hctx
        injection hctx with hv2; exact hv2.symm
      subst hctx2
      apply contextInv_updatedContext
      cases hcc : conv.context with
      | none => simp [hcc, emptyContextDict]
      | some c0 =>
        have hi := h cid conv hc c0 hcc
        simp [hcc]
        exact ⟨hi.2.2.2.1, hi.2.2.2.2⟩
    · rw [put_other _ _ _ he] at hput
      exact h cid' conv' hput ctx' hctx

lemma storeInv_updateMany (s : Store) (h : StoreInv s) (cid : String)
    (turns : List (ResponseData × String)) : StoreInv (updateMany s cid turns) := by
  induction turns generalizing s with
  | nil => exact h
  | cons t ts ih =>
    unfold updateMany
    rw [List.foldl_cons]
    exact ih _ (storeInv_update s h cid t.1 t.2)

/-- C9: calling `update` with a conversation identifier that has no stored
row is a silent no-op — the call returns normally and every stored record is
left unchanged (the store itself is unchanged). -/
theorem update_miss_silent_noop (s : Store) (conversation_id : String)
    (response_data : ResponseData) (now : String)
    (h : s conversation_id = none) :
    update s conversation_id response_data now = s :=
  update_missing s conversation_id response_data now h

/-- Witness for `update_miss_silent_noop`: updating a conversation in the
empty store changes nothing. -/
theorem update_miss_silent_noop_witness :
    update (fun _ => none) "conv-9" { } "t1" = (fun _ => none) ∧
    (fun _ => (none : Option Conversation)) "conv-9" = none :=
  ⟨update_miss_silent_noop (fun _ => none) "conv-9" { } "t1" rfl, rfl⟩

/-- C5: one `update` call on an existing conversation stores
`unresolved_turns` equal to the previous value plus one exactly when the
turn's resolved intent is unresolved-like (unknown / unclear / unresolved)
and exactly zero otherwise; `turn_count` is bumped by one. -/
theorem unresolved_turns_rule (s : Store) (conversation_id : String)
    (response_data : ResponseData) (now : String) (conv : Conversation)
    (h : s conversation_id = some conv) :
    ∃ conv' ctx',
      update s conversation_id response_data now conv.id = some conv' ∧
      conv'.context = some ctx' ∧
      ctx'.unresolved_turns =
        (if response_data.intent.getD "unknown" = "unknown" ∨
            response_data.intent.getD "unknown" = "unclear" ∨
            response_data.intent.getD "unknown" = "unresolved" then
          (conv.context.getD emptyContextDict).unresolved_turns + 1
        else 0) ∧
      ctx'.turn_count = (conv.context.getD emptyContextDict).turn_count + 1 := by
  rw [update_found s conversation_id response_data now conv h]
  refine ⟨updatedConv conv response_data now,
    updatedContext (conv.context.getD emptyContextDict) response_data now, ?_, rfl, rfl, rfl⟩
  rw [← updatedConv_id conv response_data now]
  exact put_self s (updatedConv conv response_data now)

/-- The seeded conversation row used by the witnesses. -/
def seedConv : Conversation :=
  { id := "c1", customer_id := "cust-1", channel := "chat"
    context := some emptyContextDict }

/-- A store holding exactly the seeded row. -/
def seededStore : Store := Store.put (fun _ => none) seedConv

lemma seededStore_inv : StoreInv seededStore := by
  intro cid conv h ctx hctx
  unfold seededStore Store.put at h
  by_cases hc : cid = seedConv.id
  · rw [if_pos hc] at h
    obtain rfl : conv = seedConv := by injection h with hv; exact hv.symm
    have hx : ctx = emptyContextDict := by
      have hcx : seedConv.context = some emptyContextDict := rfl
      rw [hcx] at hctx
      injection hctx with hv2; exact hv2.symm
    subst hx
    exact contextInv_empty
  · rw [if_neg hc] at h
    cases h

/-- Witness for `unresolved_turns_rule`: an "unknown" turn on the seeded
(zeroed) conversation stores `unresolved_turns = 1`. -/
theorem unresolved_turns_rule_witness :
    ∃ conv' ctx',
      update seededStore "c1" { intent := some "unknown" } "t1" "c1" = some conv' ∧
      conv'.context = some ctx' ∧
      ctx'.unresolved_turns = 1 ∧ ctx'.turn_count = 1 := by
  obtain ⟨conv', ctx', h1, h2, h3, h4⟩ := unresolved_turns_rule seededStore "c1"
    { intent := some "unknown" } "t1" seedConv rfl
  refine ⟨conv', ctx', h1, h2, ?_, ?_⟩
  · rw [h3]
    simp [seedConv, emptyContextDict]
  · rw [h4]
    simp [seedConv, emptyContextDict]

/-- C4: every stored record keeps its sequence caps (history ≤ 20, intent and
emotion trends ≤ 10) and non-negative counters after any number of `update`
calls, and each update appends new entries at the tail and trims from the
head — the new sequences are suffixes of the old sequences plus the appended
entries. -/
theorem capped_sequences_after_updates (s : Store) (cid : String)
    (turns : List (ResponseData × String)) (h : StoreInv s) :
    StoreInv (updateMany s cid turns) ∧
    (∀ (ctx : ConvContextDict) (rd : ResponseData) (now : String),
      (updatedContext ctx rd now).history.length ≤ 20 ∧
      (updatedContext ctx rd now).previous_intents.length ≤ 10 ∧
      (updatedContext ctx rd now).emotion_trend.length ≤ 10 ∧
      (updatedContext ctx rd now).history <:+
        ctx.history ++ [customerEntry rd now, assistantEntry rd now] ∧
      (updatedContext ctx rd now).previous_intents <:+
        ctx.previous_intents ++ [rd.intent.getD "unknown"] ∧
      (updatedContext ctx rd now).emotion_trend <:+
        ctx.emotion_trend ++ [rd.dominant_emotion.getD "neutral"]) := by
  refine ⟨storeInv_updateMany s h cid turns, ?_⟩
  intro ctx rd now
  exact ⟨takeLast_length_le _ _, takeLast_length_le _ _, takeLast_length_le _ _,
    takeLast_suffix _ _, takeLast_suffix _ _, takeLast_suffix _ _⟩

/-- Witness for `capped_sequences_after_updates`: the seeded store satisfies
the invariant and keeps satisfying it after two updates. -/
theorem capped_sequences_after_updates_witness :
    StoreInv seededStore ∧
    StoreInv (updateMany seededStore "c1"
      [({ intent := some "billing" }, "t1"), ({ intent := some "unknown" }, "t2")]) :=
  ⟨seededStore_inv,
   (capped_sequences_after_updates seededStore "c1"
     [({ intent := some "billing" }, "t1"), ({ intent := some "unknown" }, "t2")]
     seededStore_inv).1⟩

end CustomerCareAI

namespace CustomerCareAI

/-! ## Round-trip through the context store -/

lemma get_or_create_found (s : Store) (cid customer ch fresh : String)
    (conv : Conversation) (hcid : cid ≠ "") (h : s cid = some conv) :
    get_or_create s (some cid) customer ch fresh = (snapshotOf conv, s) := by
  simp [get_or_create, truthy, hcid, h]

lemma get_or_create_missing (s : Store) (cid customer ch fresh : String)
    (hcid : cid ≠ "") (h : s cid = none) :
    get_or_create s (some cid) customer ch fresh =
      (snapshotOf (newConv cid customer ch), s.put (newConv cid customer ch)) := by
  simp [get_or_create, truthy, hcid, h, snapshotOf, newConv, emptyContextDict]

lemma snapshotOf_updatedConv_fields (conv : Conversation) (rd : ResponseData) (now : String) :
    (snapshotOf (updatedConv conv rd now)).turn_count = (snapshotOf conv).turn_count + 1 ∧
    (snapshotOf (updatedConv conv rd now)).unresolved_turns =
      (if rd.intent.getD "unknown" = "unknown" ∨ rd.intent.getD "unknown" = "unclear" ∨
          rd.intent.getD "unknown" = "unresolved" then
        (snapshotOf conv).unresolved_turns + 1 else 0) ∧
    (snapshotOf (updatedConv conv rd now)).history =
      takeLast 20 ((snapshotOf conv).history ++ [customerEntry rd now, assistantEntry rd now]) ∧
    (snapshotOf (updatedConv conv rd now)).previous_intents =
      takeLast 10 ((snapshotOf conv).previous_intents ++ [rd.intent.getD "unknown"]) ∧
    (snapshotOf (updatedConv conv rd now)).emotion_trend =
      takeLast 10 ((snapshotOf conv).emotion_trend ++ [rd.dominant_emotion.getD "neutral"]) :=
  ⟨rfl, rfl, rfl, rfl, rfl⟩

lemma roundtrip_core (s1 : Store) (cid customer ch fresh now : String) (rd : ResponseData)
    (conv1 : Conversation) (hcid : cid ≠ "") (hid : conv1.id = cid)
    (h1 : s1 cid = some conv1) :
    (get_or_create (update s1 cid rd now) (some cid) customer ch fresh).1 =
      snapshotOf (updatedConv conv1 rd now) := by
  rw [update_found s1 cid rd now conv1 h1]
  have h2 : (s1.put (updatedConv conv1 rd now)) cid = some (updatedConv conv1 rd now) := by
    have hp := put_self s1 (updatedConv conv1 rd now)
    rw [updatedConv_id, hid] at hp
    exact hp
  rw [get_or_create_found _ cid customer ch fresh _ hcid h2]

/-- C8: for a non-empty conversation identifier on a primary-key-consistent
store, `get_or_create`, then `update` with a turn result, then `get_or_create`
again returns a snapshot reflecting that update: `turn_count` bumped by one,
`unresolved_turns` recomputed by the increment/reset rule, and the history and
trend sequences extended by the turn's entries and trimmed to their caps. -/
theorem get_update_get_roundtrip (s : Store) (cid customer ch fresh now : String)
    (rd : ResponseData) (hcid : cid ≠ "") (hkey : StoreKeyInv s) :
    ((get_or_create (update (get_or_create s (some cid) customer ch fresh).2 cid rd now)
        (some cid) customer ch fresh).1.turn_count =
      (get_or_create s (some cid) customer ch fresh).1.turn_count + 1) ∧
    ((get_or_create (update (get_or_create s (some cid) customer ch fresh).2 cid rd now)
        (some cid) customer ch fresh).1.unresolved_turns =
      (if rd.intent.getD "unknown" = "unknown" ∨ rd.intent.getD "unknown" = "unclear" ∨
          rd.intent.getD "unknown" = "unresolved" then
        (get_or_create s (some cid) customer ch fresh).1.unresolved_turns + 1 else 0)) ∧
    ((get_or_create (update (get_or_create s (some cid) customer ch fresh).2 cid rd now)
        (some cid) customer ch fresh).1.history =
      takeLast 20 ((get_or_create s (some cid) customer ch fresh).1.history ++
        [customerEntry rd now, assistantEntry rd now])) ∧
    ((get_or_create (update (get_or_create s (some cid) customer ch fresh).2 cid rd now)
        (some cid) customer ch fresh).1.previous_intents =
      takeLast 10 ((get_or_create s (some cid) customer ch fresh).1.previous_intents ++
        [rd.intent.getD "unknown"])) ∧
    ((get_or_create (update (get_or_create s (some cid) customer ch fresh).2 cid rd now)
        (some cid) customer ch fresh).1.emotion_trend =
      takeLast 10 ((get_or_create s (some cid) customer ch fresh).1.emotion_trend ++
        [rd.dominant_emotion.getD "neutral"])) := by
  rcases hs : s cid with _ | conv
  · have hfirst := get_or_create_missing s cid customer ch fresh hcid hs
    have h1 : (s.put (newConv cid customer ch)) cid = some (newConv cid customer ch) :=
      put_self s (newConv cid customer ch)
    have hcore := roundtrip_core (s.put (newConv cid customer ch)) cid customer ch fresh now
      rd (newConv cid customer ch) hcid rfl h1
    rw [hfirst]
    simp only []
    rw [hcore]
    exact snapshotOf_updatedConv_fields (newConv cid customer ch) rd now
  · have hid := hkey cid conv hs
    have hfirst := get_or_create_found s cid customer ch fresh conv hcid hs
    have hcore := roundtrip_core s cid customer ch fresh now rd conv hcid hid hs
    rw [hfirst]
    simp only []
    rw [hcore]
    exact snapshotOf_updatedConv_fields conv rd now

/-- Witness for `get_update_get_roundtrip`: a fresh conversation in the empty
store shows `turn_count` going from 0 to 1 across the round trip. -/
theorem get_update_get_roundtrip_witness :
    (get_or_create (update (get_or_create (fun _ => none) (some "c1") "cust-1" "chat" "f1").2
        "c1" { intent := some "billing" } "t1") (some "c1") "cust-1" "chat" "f1").1.turn_count =
      (get_or_create (fun _ => none) (some "c1") "cust-1" "chat" "f1").1.turn_count + 1 := by
  have h := get_update_get_roundtrip (fun _ => none) "c1" "cust-1" "chat" "f1" "t1"
    { intent := some "billing" } (by decide) (by intro c conv hc; cases hc)
  exact h.1

end CustomerCareAI

namespace CustomerCareAI

lemma setClient_requests_self (rl : RateLimiter) (client : String) (ts : List ℚ) :
    (rl.setClient client ts).requests client = ts := by
  simp [RateLimiter.setClient]

lemma rl_dispatch_eq {α : Type} (rl : RateLimiter) (client : String) (now : ℚ)
    (resp : α) :
    rl_dispatch rl client now resp =
      if rl.max_requests ≤
          ((rl.requests client).filter (fun ts => now - ts < rl.window_seconds)).length then
        (DispatchResult.rateLimited,
          rl.setClient client
            ((rl.requests client).filter (fun ts => now - ts < rl.window_seconds)))
      else
        (DispatchResult.ok resp,
          (rl.setClient client
              ((rl.requests client).filter (fun ts => now - ts < rl.window_seconds))).setClient
            client
            (((rl.requests client).filter (fun ts => now - ts < rl.window_seconds)) ++ [now])) :=
  rfl

/-- C7: one middleware dispatch admits a request exactly when the number of
stored (previously admitted) timestamps inside the trailing window is below
the ceiling, and otherwise returns the distinguishable rate-limited outcome
without invoking the inner handler; admission records the request timestamp,
rejection records nothing; a client whose log holds exactly the ceiling of
in-window timestamps is rejected, and once every stored timestamp has aged
past the window admission resumes.  (`time.time()` floats are embedded as
rationals; only order comparisons occur.) -/
theorem rate_limiter_sliding_window {α : Type} (rl : RateLimiter) (client : String)
    (now : ℚ) (resp : α) :
    ((rl_dispatch rl client now resp).1 = DispatchResult.ok resp ↔
      ((rl.requests client).filter (fun ts => now - ts < rl.window_seconds)).length <
        rl.max_requests) ∧
    ((rl_dispatch rl client now resp).1 = DispatchResult.rateLimited ↔
      rl.max_requests ≤
        ((rl.requests client).filter (fun ts => now - ts < rl.window_seconds)).length) ∧
    ((rl_dispatch rl client now resp).1 = DispatchResult.ok resp →
      ((rl_dispatch rl client now resp).2.requests client =
        (rl.requests client).filter (fun ts => now - ts < rl.window_seconds) ++ [now])) ∧
    ((rl_dispatch rl client now resp).1 = DispatchResult.rateLimited →
      ((rl_dispatch rl client now resp).2.requests client =
        (rl.requests client).filter (fun ts => now - ts < rl.window_seconds))) ∧
    ((rl.requests client).length = rl.max_requests →
      (∀ ts ∈ rl.requests client, now - ts < rl.window_seconds) →
      (rl_dispatch rl client now resp).1 = DispatchResult.rateLimited) ∧
    (0 < rl.max_requests →
      (∀ ts ∈ rl.requests client, rl.window_seconds ≤ now - ts) →
      (rl_dispatch rl client now resp).1 = DispatchResult.ok resp) := by
  refine ⟨?_, ?_, ?_, ?_, ?_, ?_⟩
  · rw [rl_dispatch_eq]
    split_ifs with h
    · constructor
      · intro hc; simp at hc
      · intro hc; omega
    · constructor
      · intro _; omega
      · intro _; rfl
  · rw [rl_dispatch_eq]
    split_ifs with h
    · exact ⟨fun _ => h, fun _ => rfl⟩
    · constructor
      · intro hc; simp at hc
      · intro hc; omega
  · rw [rl_dispatch_eq]
    split_ifs with h
    · intro hc; simp at hc
    · intro _
      simp [RateLimiter.setClient]
  · rw [rl_dispatch_eq]
    split_ifs with h
    · intro _
      simp [RateLimiter.setClient]
    · intro hc; simp at hc
  · intro hlen hall
    have hfil : (rl.requests client).filter (fun ts => now - ts < rl.window_seconds) =
        rl.requests client := by
      apply List.filter_eq_self.mpr
      intro a ha
      simpa using hall a ha
    rw [rl_dispatch_eq, hfil, hlen]
    rw [if_pos (le_refl _)]
  · intro hpos hall
    have hfil : (rl.requests client).filter (fun ts => now - ts < rl.window_seconds) = [] := by
      apply List.filter_eq_nil_iff.mpr
      intro a ha
      simpa using not_lt.mpr (hall a ha)
    rw [rl_dispatch_eq, hfil]
    rw [if_neg (by simp; omega)]

/-- A limiter whose one client is exactly at a ceiling of 2. -/
def fullLimiter : RateLimiter :=
  { max_requests := 2, window_seconds := 60
    requests := fun c => if c = "ip-1" then [0, 1] else [] }

/-- Witness for `rate_limiter_sliding_window`: at the ceiling and inside the
window the request is rejected; after the window has elapsed it is admitted. -/
theorem rate_limiter_sliding_window_witness :
    (rl_dispatch fullLimiter "ip-1" 30 "resp").1 = DispatchResult.rateLimited ∧
    (rl_dispatch fullLimiter "ip-1" 100 "resp").1 = DispatchResult.ok "resp" := by
  have h1 := rate_limiter_sliding_window fullLimiter "ip-1" 30 "resp"
  have h2 := rate_limiter_sliding_window fullLimiter "ip-1" 100 "resp"
  refine ⟨h1.2.2.2.2.1 rfl ?_, h2.2.2.2.2.2 (by norm_num [fullLimiter]) ?_⟩
  · intro ts hts
    simp [fullLimiter] at hts
    rcases hts with h | h <;> subst h <;> norm_num [fullLimiter]
  · intro ts hts
    simp [fullLimiter] at hts
    rcases hts with h | h <;> subst h <;> norm_num [fullLimiter]

end CustomerCareAI
